import Mathlib

/-!
Shallow embedding of the HTTP access layer of a Canvas LMS client
(src/client.ts): the axios interceptor pipeline (pagination draining,
retry-with-backoff, error normalization), the constructor configuration,
the health check, and the roster accessor with activity enrichment.

JavaScript values flowing through the interceptors are modelled by the
`Json` inductive; machine behaviour such as `undefined < n` evaluating to
`false` is modelled explicitly.
-/

/-- A JSON/JavaScript value as observed by the interceptor code.
`jnull` stands for JavaScript null. -/
inductive Json where
  | jnull : Json
  | jbool : Bool → Json
  | jnum : Int → Json
  | jstr : String → Json
  | jarr : List Json → Json
  | jobj : List (String × Json) → Json
deriving Repr

/-- JavaScript truthiness of a value (NaN is not modelled; numbers are
integers). -/
def jsTruthy : Json → Bool
  | Json.jnull => false
  | Json.jbool b => b
  | Json.jnum n => n != 0
  | Json.jstr s => s != ""
  | Json.jarr _ => true
  | Json.jobj _ => true

/-- Property lookup `value[key]` on an object; any non-object access of a
named property yields undefined (`none`). -/
def lookupField (fs : List (String × Json)) (key : String) : Option Json :=
  match fs with
  | [] => none
  | (k, v) :: rest => if k == key then some v else lookupField rest key

/-- `value.key` in JavaScript: only objects carry the looked-up fields. -/
def getField (key : String) : Json → Option Json
  | Json.jobj fs => lookupField fs key
  | _ => none

mutual
/-- JavaScript `String(value)` coercion, as used by template literals and
`Array.prototype.join`. -/
def jsToString : Json → String
  | Json.jnull => "null"
  | Json.jbool b => if b then "true" else "false"
  | Json.jnum n => toString n
  | Json.jstr s => s
  | Json.jarr xs => String.intercalate "," (jsToStringElems xs)
  | Json.jobj _ => "[object Object]"

/-- Elements of an array under `String()`: null elements print as empty. -/
def jsToStringElems : List Json → List String
  | [] => []
  | Json.jnull :: rest => "" :: jsToStringElems rest
  | x :: rest => jsToString x :: jsToStringElems rest
end

/-- Escape a string for JSON serialization (quote and backslash). -/
def jsonEscape (s : String) : String :=
  String.join (s.toList.map (fun c =>
    if c = '"' then "\\\""
    else if c = '\\' then "\\\\"
    else String.mk [c]))

mutual
/-- `JSON.stringify` on the modelled values. -/
def jsonStringify : Json → String
  | Json.jnull => "null"
  | Json.jbool b => if b then "true" else "false"
  | Json.jnum n => toString n
  | Json.jstr s => "\"" ++ jsonEscape s ++ "\""
  | Json.jarr xs => "[" ++ String.intercalate "," (jsonStringifyElems xs) ++ "]"
  | Json.jobj fs => "\x7b" ++ String.intercalate "," (jsonStringifyFields fs) ++ "\x7d"

def jsonStringifyElems : List Json → List String
  | [] => []
  | x :: rest => jsonStringify x :: jsonStringifyElems rest

def jsonStringifyFields : List (String × Json) → List String
  | [] => []
  | (k, v) :: rest =>
      ("\"" ++ jsonEscape k ++ "\":" ++ jsonStringify v) :: jsonStringifyFields rest
end

/-! ## Link-header parsing (getNextPageUrl, src/client.ts lines 210-217) -/

/-- Split a character list at commas, as JavaScript `s.split(',')`. -/
def splitCommaAux : List Char → List Char → List (List Char)
  | [], acc => [acc.reverse]
  | c :: rest, acc =>
      if c = ',' then acc.reverse :: splitCommaAux rest []
      else splitCommaAux rest (c :: acc)

def splitComma (cs : List Char) : List (List Char) :=
  splitCommaAux cs []

/-- Boolean list-prefix test on characters. -/
def charsPrefixTest : List Char → List Char → Bool
  | [], _ => true
  | _ :: _, [] => false
  | a :: as, b :: bs => a == b && charsPrefixTest as bs

/-- JavaScript `hay.includes(needle)` on strings, as character lists. -/
def containsSub (needle : List Char) : List Char → Bool
  | [] => needle.isEmpty
  | c :: rest => charsPrefixTest needle (c :: rest) || containsSub needle rest

/-- `hay.includes(needle)` on Lean strings. -/
def containsSubStr (needle hay : String) : Bool :=
  containsSub needle.toList hay.toList

/-- Index of the first character `>` in a list, if any. -/
def firstGtIdx : List Char → Option Nat
  | [] => none
  | c :: rest =>
      if c = '>' then some 0
      else match firstGtIdx rest with
        | some i => some (i + 1)
        | none => none

/-- First match of the regex `<(.+?)>`: the group captured between the
first `<` that is followed, at distance at least two, by a `>`, and the
first such `>` (the lazy `.+?` consumes at least one character, and `.`
matches `<` and `>` as well). -/
def extractAngle : List Char → Option (List Char)
  | [] => none
  | c :: rest =>
      if c = '<' then
        match rest with
        | [] => none
        | d :: rest2 =>
            match firstGtIdx rest2 with
            | some i => some (d :: rest2.take i)
            | none => extractAngle rest
      else extractAngle rest

/-- Embedding of `getNextPageUrl(linkHeader)`: split the header on commas,
find the first part containing the text rel="next", and return the regex
capture `<(.+?)>` from it. -/
def getNextPageUrl (linkHeader : String) : Option String :=
  let parts := splitComma linkHeader.toList
  match parts.find? (fun p => containsSub ("rel=\"next\"".toList) p) with
  | none => none
  | some p => (extractAngle p).map (fun cs => String.mk cs)

/-! ## Error model and normalization (src/client.ts lines 132-204) -/

/-- The `error.response` object: HTTP status and decoded body. -/
structure ErrResponse where
  status : Nat
  data : Json
deriving Repr

/-- The axios error object as inspected by the error interceptor:
an optional response, whether a request was dispatched (`error.request`),
and the error message. -/
structure AxiosErrorModel where
  response : Option ErrResponse
  hasRequest : Bool
  message : String
deriving Repr

/-- Modelled from the spec: the Typed Error (class `CanvasAPIError` lives
in src/types.ts, which is not among the provided sources). Per the spec it
carries a human-readable message, an HTTP status code (0 for pure network
failure), and the raw response body (`jnull` when no body exists). -/
structure CanvasAPIError where
  message : String
  status : Nat
  body : Json
deriving Repr

/-- Embedding of `shouldRetry` (lines 199-204): retry when no response was
received, or on status 429, or on any status at or above 500. -/
def shouldRetry (e : AxiosErrorModel) : Bool :=
  match e.response with
  | none => true
  | some r => r.status == 429 || 500 ≤ r.status

/-- JavaScript comparison `config.__retryCount < maxRetries` where the
counter may be undefined (`none`): `undefined < n` evaluates to false. -/
def jsLtUndef (rc : Option Nat) (bound : Nat) : Bool :=
  match rc with
  | none => false
  | some k => k < bound

/-- The backoff expression of line 140: `retryDelay * Math.pow(2, k - 1)`
for retry attempt `k` (1-indexed). -/
def computeRetryDelay (retryDelay k : Nat) : Nat :=
  retryDelay * 2 ^ (k - 1)

/-- The mapped value for one element of an `errors` array,
`err.message || err` (line 164), as later coerced by `join`. Accessing
`.message` on a null element throws a TypeError (`none` here), which the
try/catch of lines 155-174 turns into the `String(data)` fallback. -/
def errElemStr : Json → Option String
  | Json.jnull => none
  | Json.jobj efs =>
      some (match lookupField efs "message" with
        | some mv => if jsTruthy mv then jsToString mv
                     else jsToString (Json.jobj efs)
        | none => jsToString (Json.jobj efs))
  | err => some (jsToString err)

/-- The `errors`-array / stringify fallback of lines 163-171, reached when
no truthy `message` field exists on the object body: a present errors
array is mapped element-wise and joined with ", "; if mapping any element
throws (a null element), the catch of line 171 yields `String(data)`;
otherwise (errors absent or not an array) `JSON.stringify(data)`. -/
def errorsOrStringify (whole : Json) (fs : List (String × Json)) : String :=
  match lookupField fs "errors" with
  | some (Json.jarr es) =>
      match es.mapM errElemStr with
      | some strs => String.intercalate ", " strs
      | none => jsToString whole
  | some _ => jsonStringify whole
  | none => jsonStringify whole

/-- Embedding of the error-detail derivation (lines 155-174): a string
body is used directly, truncated to 200 characters plus "..." when
longer; an object body prefers a truthy `message` field, then an `errors`
array joined with ", " (a TypeError thrown while mapping a null element
is caught, yielding `String(data)`), then `JSON.stringify`; anything
else is `String(data)`. -/
def extractErrorMessage : Json → String
  | Json.jstr s => if 200 < s.length then s.take 200 ++ "..." else s
  | Json.jobj fs =>
      match lookupField fs "message" with
      | some mv =>
          if jsTruthy mv then jsToString mv
          else errorsOrStringify (Json.jobj fs) fs
      | none => errorsOrStringify (Json.jobj fs) fs
  | Json.jarr xs => jsonStringify (Json.jarr xs)
  | d => jsToString d

/-- A failure escaping a logical call. `typed` is the Typed Error thrown
by the interceptor; `unwrapped` is line 194's re-throw of an error with
neither response nor request; `jsTypeErr` is the TypeError thrown by
`getNextPageUrl(undefined)` when a follow-up page lacks a link header;
`noFuel` is a modelling artifact standing for non-termination of the
unbounded pagination loop (theorems always supply sufficient fuel). -/
inductive RunError where
  | typed : CanvasAPIError → RunError
  | unwrapped : String → RunError
  | jsTypeErr : String → RunError
  | noFuel : RunError
deriving Repr

/-- Embedding of the error-transformation tail of the interceptor
(lines 147-194), applied when the retry branch is not taken. -/
def normalizeAxiosError (e : AxiosErrorModel) : RunError :=
  match e.response with
  | some r =>
      RunError.typed
        { message := "Canvas API Error (" ++ toString r.status ++ "): " ++
            extractErrorMessage r.data
          status := r.status
          body := r.data }
  | none =>
      if e.hasRequest then
        RunError.typed
          { message := "Network error: " ++ e.message
            status := 0
            body := Json.jnull }
      else RunError.unwrapped e.message

/-! ## Execution model of a logical call (interceptor pipeline,
src/client.ts lines 110-196) -/

/-- A successful HTTP response as seen by the success interceptor:
decoded body, the `link` header if present, and the content type. -/
structure PageResponse where
  data : Json
  link : Option String
  contentType : String
deriving Repr

/-- The remote endpoint: what one HTTP request to a given URL yields.
Deterministic per URL, which suffices for the scenarios considered. -/
inductive ServerReply where
  | ok : PageResponse → ServerReply
  | fail : AxiosErrorModel → ServerReply

/-- Outcome of one request through the full interceptor chain, together
with the number of HTTP requests performed and the backoff delays slept,
in order. -/
structure RunOut where
  result : Except RunError PageResponse
  requests : Nat
  delays : List Nat
deriving Repr

/-- The spread `[...acc, ...nextResponse.data]`: arrays spread to their
elements, strings to their characters, anything else throws a TypeError. -/
def spreadElems : Json → Except RunError (List Json)
  | Json.jarr xs => Except.ok xs
  | Json.jstr s => Except.ok (s.toList.map (fun c => Json.jstr (String.mk [c])))
  | _ => Except.error (RunError.jsTypeErr "value is not iterable")

/-- Whether the success interceptor enters its pagination branch
(line 117): array body, truthy link header, JSON content type. -/
def paginates (r : PageResponse) : Bool :=
  (match r.data with | Json.jarr _ => true | _ => false) &&
  (match r.link with | some l => l != "" | none => false) &&
  containsSubStr "application/json" r.contentType

/-- Result of the pagination while-loop (lines 121-125). -/
structure PLoopOut where
  result : Except RunError (List Json)
  requests : Nat
  delays : List Nat
deriving Repr

/-- The while-loop of lines 121-125: follow `nextUrl` with a fresh GET
through the full interceptor chain (`fetch`), spread the returned data
onto the accumulator, and take the next URL from the returned response's
own link header — which throws a TypeError when that header is absent.
`fuel` bounds the number of iterations. -/
def paginateLoop (fetch : String → RunOut) :
    Nat → Option String → List Json → PLoopOut
  | _, none, acc => { result := Except.ok acc, requests := 0, delays := [] }
  | 0, some _, _ => { result := Except.error RunError.noFuel, requests := 0, delays := [] }
  | fuel + 1, some u, acc =>
      let inner := fetch u
      match inner.result with
      | Except.error e =>
          { result := Except.error e, requests := inner.requests, delays := inner.delays }
      | Except.ok resp =>
          match spreadElems resp.data with
          | Except.error e2 =>
              { result := Except.error e2, requests := inner.requests, delays := inner.delays }
          | Except.ok items =>
              match resp.link with
              | none =>
                  { result := Except.error (RunError.jsTypeErr
                      "Cannot read properties of undefined (reading split)")
                    requests := inner.requests
                    delays := inner.delays }
              | some l =>
                  let rest := paginateLoop fetch fuel (getNextPageUrl l) (acc ++ items)
                  { result := rest.result
                    requests := inner.requests + rest.requests
                    delays := inner.delays ++ rest.delays }

/-- One request through the full interceptor chain. On success the
pagination branch may drain further pages (each follow-up GET runs through
the chain again, with a fresh undefined retry counter); on failure the
retry branch fires only when `shouldRetry` holds and the JavaScript
comparison `__retryCount < maxRetries` is true — with an undefined
counter that comparison is false. Otherwise the failure is normalized
and thrown. `fuel` bounds the recursion depth. -/
def fullRequest (server : String → ServerReply) (maxRetries retryDelay : Nat) :
    Nat → String → Option Nat → RunOut
  | 0, _, _ => { result := Except.error RunError.noFuel, requests := 0, delays := [] }
  | fuel + 1, url, rc =>
      match server url with
      | ServerReply.ok r =>
          if paginates r then
            match r.data, r.link with
            | Json.jarr xs, some l =>
                let lp := paginateLoop
                    (fun u => fullRequest server maxRetries retryDelay fuel u none)
                    fuel (getNextPageUrl l) xs
                match lp.result with
                | Except.ok allData =>
                    { result := Except.ok { r with data := Json.jarr allData }
                      requests := 1 + lp.requests
                      delays := lp.delays }
                | Except.error e =>
                    { result := Except.error e
                      requests := 1 + lp.requests
                      delays := lp.delays }
            | _, _ => { result := Except.ok r, requests := 1, delays := [] }
          else { result := Except.ok r, requests := 1, delays := [] }
      | ServerReply.fail e =>
          if shouldRetry e && jsLtUndef rc maxRetries then
            let k := rc.getD 0 + 1
            let out := fullRequest server maxRetries retryDelay fuel url (some k)
            { result := out.result
              requests := out.requests + 1
              delays := computeRetryDelay retryDelay k :: out.delays }
          else
            { result := Except.error (normalizeAxiosError e), requests := 1, delays := [] }

/-- A logical call as the caller sees it: the decoded payload of the
fully processed response, or the single failure that escaped. The retry
counter starts undefined, as on every fresh top-level request. -/
def logicalCall (server : String → ServerReply) (maxRetries retryDelay fuel : Nat)
    (url : String) : Except RunError Json :=
  (fullRequest server maxRetries retryDelay fuel url none).result.map
    (fun r => r.data)

/-- Whether a run failure is the Typed Error of the spec. -/
def isTypedFailure : RunError → Bool
  | RunError.typed _ => true
  | _ => false

/-! ## Concrete scenarios -/

/-- Items of page 1 of the simulated 3-page collection (N = 2). -/
def pageItems1 : List Json := [Json.jnum 1, Json.jnum 2]

/-- Items of page 2. -/
def pageItems2 : List Json := [Json.jnum 3, Json.jnum 4]

/-- Items of page 3. -/
def pageItems3 : List Json := [Json.jnum 5, Json.jnum 6]

/-- A link header whose target carries the relation next. -/
def linkNext (u : String) : String := "<" ++ u ++ ">; rel=\"next\""

/-- A link header carrying only the relation last (no next). -/
def linkLast (u : String) : String := "<" ++ u ++ ">; rel=\"last\""

/-- Simulated collection endpoint with three pages chained by
rel="next" link headers; the last page's header has no next relation. -/
def srvPages : String → ServerReply := fun url =>
  if url == "u2" then
    ServerReply.ok { data := Json.jarr pageItems2, link := some (linkNext "u3"),
                     contentType := "application/json; charset=utf-8" }
  else if url == "u3" then
    ServerReply.ok { data := Json.jarr pageItems3, link := some (linkLast "u1"),
                     contentType := "application/json; charset=utf-8" }
  else
    ServerReply.ok { data := Json.jarr pageItems1, link := some (linkNext "u2"),
                     contentType := "application/json; charset=utf-8" }

/-- Endpoint that always answers HTTP 500. -/
def srv500 : String → ServerReply := fun _ =>
  ServerReply.fail
    { response := some { status := 500, data := Json.jstr "Internal Server Error" }
      hasRequest := true
      message := "Request failed with status code 500" }

/-- Endpoint that always answers HTTP 404 with a structured body. -/
def srv404 : String → ServerReply := fun _ =>
  ServerReply.fail
    { response := some
        { status := 404
          data := Json.jobj [("message", Json.jstr "The specified resource does not exist.")] }
      hasRequest := true
      message := "Request failed with status code 404" }

/-- Endpoint that never answers: the request is dispatched but no
response arrives (connection-level failure or timeout). -/
def srvNet : String → ServerReply := fun _ =>
  ServerReply.fail
    { response := none, hasRequest := true, message := "timeout of 30000ms exceeded" }

/-- A failure thrown before any request is dispatched (for example a
request-interceptor rejection): neither response nor request is present. -/
def srvSetup : String → ServerReply := fun _ =>
  ServerReply.fail { response := none, hasRequest := false, message := "boom" }

/-! ## Constructor configuration (src/client.ts lines 79-94) -/

/-- The options bag a caller may pass at runtime. The TypeScript
declaration (line 79) lists only `maxRetries` and `retryDelay`; the
`timeout` field here models a caller passing an excess property at
runtime, which JavaScript permits and the constructor never reads. -/
structure CtorOptionsBag where
  maxRetries : Option Nat := none
  retryDelay : Option Nat := none
  timeout : Option Nat := none
deriving Repr

/-- The immutable client configuration established by the constructor. -/
structure ClientConfig where
  baseURL : String
  authHeader : String
  contentTypeHeader : String
  timeout : Nat
  maxRetries : Nat
  retryDelay : Nat
deriving Repr, DecidableEq

/-- Embedding of the constructor: base URL `https://<domain>/api/v1`,
bearer authorization and JSON content type headers, hard-coded timeout
of 30000 ms, and `options?.maxRetries ?? 3`, `options?.retryDelay ?? 1000`. -/
def mkCanvasClient (token domain : String) (options : Option CtorOptionsBag) :
    ClientConfig :=
  { baseURL := "https://" ++ domain ++ "/api/v1"
    authHeader := "Bearer " ++ token
    contentTypeHeader := "application/json"
    timeout := 30000
    maxRetries := (options.bind CtorOptionsBag.maxRetries).getD 3
    retryDelay := (options.bind CtorOptionsBag.retryDelay).getD 1000 }

/-! ## Health check (src/client.ts lines 222-236) -/

/-- The fields of the user profile that the health check reads. -/
structure UserProfileModel where
  id : Int
  name : String
deriving Repr, DecidableEq

/-- The value returned by `healthCheck`. -/
structure HealthResult where
  status : String
  timestamp : String
  user : Option (Int × String)
deriving Repr, DecidableEq

/-- Embedding of `healthCheck`: the profile fetch outcome is passed in
(`getUserProfile` either resolves or rejects with the failure the
transport raised); the current time is passed as `now`. The try/catch
turns every failure into a status of error. -/
def healthCheck (profileFetch : Except RunError UserProfileModel)
    (now : String) : HealthResult :=
  match profileFetch with
  | Except.ok u => { status := "ok", timestamp := now, user := some (u.id, u.name) }
  | Except.error _ => { status := "error", timestamp := now, user := none }

/-! ## Roster accessor with activity enrichment
(getCourseStudents, src/client.ts lines 947-968) -/

/-- JavaScript object-spread update: the fields of the student with the
named field set (in place if present, appended otherwise); spreading a
non-object yields an object with only the new field. -/
def setField : List (String × Json) → String → Json → List (String × Json)
  | [], key, v => [(key, v)]
  | (k, x) :: rest, key, v =>
      if k == key then (k, v) :: rest else (k, x) :: setField rest key v

/-- The object built by the spread expression of lines 953-956 and
958-961. -/
def jsSpreadSet (s : Json) (key : String) (v : Json) : Json :=
  match s with
  | Json.jobj fs => Json.jobj (setField fs key v)
  | _ => Json.jobj [(key, v)]

/-- `activityResponse.data[0]?.created_at || null` of line 955. -/
def lastActivityOf (activityData : Json) : Json :=
  match activityData with
  | Json.jarr (v :: _) =>
      match getField "created_at" v with
      | some c => if jsTruthy c then c else Json.jnull
      | none => Json.jnull
  | _ => Json.jnull

/-- The value `student.id` used to address the per-student sub-call. -/
def studentIdOf (st : Json) : Json :=
  (getField "id" st).getD Json.jnull

/-- Embedding of the `include_activity` enrichment (lines 948-965): each
student is mapped independently; a successful page-views sub-call yields
its first entry's creation time (or null), a failed sub-call is caught
and recorded as a null `last_activity` field. The fan-out settles for
every student, so the whole roster is always returned. -/
def enrichWithActivity (fetch : Json → Except RunError Json)
    (students : List Json) : List Json :=
  students.map (fun st =>
    match fetch (studentIdOf st) with
    | Except.ok act => jsSpreadSet st "last_activity" (lastActivityOf act)
    | Except.error _ => jsSpreadSet st "last_activity" Json.jnull)

/-- A roster entry with an id and a name. -/
def mkStudent (i : Int) (nm : String) : Json :=
  Json.jobj [("id", Json.jnum i), ("name", Json.jstr nm)]

/-- A five-student roster. -/
def rosterStudents : List Json :=
  [mkStudent 1 "Ada", mkStudent 2 "Ben", mkStudent 3 "Cleo",
   mkStudent 4 "Dia", mkStudent 5 "Eli"]

/-- The Typed Error raised by the failing per-student sub-call. -/
def rosterErr : RunError :=
  RunError.typed
    { message := "Canvas API Error (403): forbidden", status := 403,
      body := Json.jstr "forbidden" }

/-- Per-student page-views endpoint: fails for the student with id 3,
answers one page view for everyone else. -/
def rosterFetch : Json → Except RunError Json := fun idv =>
  match idv with
  | Json.jnum (3 : Int) => Except.error rosterErr
  | _ => Except.ok (Json.jarr [Json.jobj [("created_at", Json.jstr "2024-05-01T10:00:00Z")]])

/-- A plain-text error body of 500 characters. -/
def longBody : String := String.mk (List.replicate 500 'x')

/-! ## Helper lemmas -/

/-- A fresh request whose dispatch fails is never retried: the retry
guard compares the undefined retry counter against `maxRetries`, and in
JavaScript `undefined < n` is false, so the failure is normalized and
thrown after a single attempt. -/
theorem firstFailureNoRetry (server : String → ServerReply)
    (mr rd fuel : Nat) (url : String) (e : AxiosErrorModel)
    (h : server url = ServerReply.fail e) :
    fullRequest server mr rd (fuel + 1) url none =
      { result := Except.error (normalizeAxiosError e), requests := 1, delays := [] } := by
  simp [fullRequest, h, jsLtUndef]

/-- Setting a field makes it present with the new value. -/
theorem lookupField_setField_self (fs : List (String × Json)) (key : String)
    (v : Json) : lookupField (setField fs key v) key = some v := by
  induction fs with
  | nil => simp [setField, lookupField]
  | cons p rest ih =>
      obtain ⟨k, x⟩ := p
      by_cases hk : k = key
      · subst hk; simp [setField, lookupField]
      · simp [setField, lookupField, hk, ih]

/-- Setting one field leaves every other field unchanged. -/
theorem lookupField_setField_other (fs : List (String × Json)) (key key' : String)
    (v : Json) (h : key' ≠ key) :
    lookupField (setField fs key v) key' = lookupField fs key' := by
  induction fs with
  | nil => simp [setField, lookupField, Ne.symm h]
  | cons p rest ih =>
      obtain ⟨k, x⟩ := p
      by_cases hk : k = key
      · subst hk
        simp [setField, lookupField, Ne.symm h]
      · simp [setField, lookupField, hk, ih]

/-- Every delay slept inside the pagination loop comes from one of the
follow-up requests it issues. -/
theorem paginateLoop_delays_shape (fetch : String → RunOut) (P : Nat → Prop)
    (hf : ∀ u d, d ∈ (fetch u).delays → P d) :
    ∀ (fuel : Nat) (next : Option String) (acc : List Json) (d : Nat),
      d ∈ (paginateLoop fetch fuel next acc).delays → P d := by
  intro fuel
  induction fuel with
  | zero =>
      intro next acc d hd
      cases next <;> simp [paginateLoop] at hd
  | succ n ih =>
      intro next acc d hd
      cases next with
      | none => simp [paginateLoop] at hd
      | some u =>
          simp only [paginateLoop] at hd
          split at hd
          · exact hf u d hd
          · split at hd
            · exact hf u d hd
            · split at hd
              · exact hf u d hd
              · rcases List.mem_append.mp hd with h1 | h2
                · exact hf u d h1
                · exact ih _ _ d h2

/-- Every delay slept during a run equals the exponential backoff value
for some retry attempt number `k` with `1 ≤ k`. -/
theorem fullRequest_delays_shape (server : String → ServerReply) (mr rd : Nat) :
    ∀ (fuel : Nat) (url : String) (rc : Option Nat) (d : Nat),
      d ∈ (fullRequest server mr rd fuel url rc).delays →
      ∃ k, 1 ≤ k ∧ d = computeRetryDelay rd k := by
  intro fuel
  induction fuel with
  | zero =>
      intro url rc d hd
      simp [fullRequest] at hd
  | succ n ih =>
      intro url rc d hd
      simp only [fullRequest] at hd
      split at hd
      · split at hd
        · split at hd
          · split at hd
            · exact paginateLoop_delays_shape _ _ (fun u d hd2 => ih u none d hd2) _ _ _ d hd
            · exact paginateLoop_delays_shape _ _ (fun u d hd2 => ih u none d hd2) _ _ _ d hd
          · simp at hd
        · simp at hd
      · split at hd
        · rcases List.mem_cons.mp hd with h1 | h2
          · exact ⟨_, by omega, h1⟩
          · exact ih _ _ d h2
        · simp at hd

/-! ## Claim theorems -/

/-- C1: for an endpoint that always answers HTTP 500 and `maxRetries = 2`,
the code performs exactly ONE attempt — not the three the claim states —
and immediately raises the Typed Error with status 500: the retry guard
reads the still-undefined retry counter, and `undefined < 2` is false in
JavaScript, so the retry branch is dead code. -/
theorem retry_exhaustion_single_attempt :
    fullRequest srv500 2 1000 8 "endpoint" none =
      { result := Except.error (RunError.typed
          { message := "Canvas API Error (500): Internal Server Error"
            status := 500
            body := Json.jstr "Internal Server Error" })
        requests := 1
        delays := [] } := rfl

/-- C2: for the simulated collection of 3 pages of 2 items each chained
by rel="next" links, one logical call returns the items of page 3 TWICE
(8 items instead of 6) and issues 3 follow-up GET requests instead of 2:
each follow-up GET runs through the same response interceptor and drains
its own tail of the chain, after which the outer loop follows the same
link again. -/
theorem pagination_three_pages_run :
    (fullRequest srvPages 3 1000 8 "u1" none).result =
      Except.ok
        { data := Json.jarr (pageItems1 ++ pageItems2 ++ pageItems3 ++ pageItems3)
          link := some (linkNext "u2")
          contentType := "application/json; charset=utf-8" }
    ∧ (fullRequest srvPages 3 1000 8 "u1" none).requests = 4 := ⟨rfl, rfl⟩

/-- C3: a failure is classified retryable exactly when no response was
received, or the response status is 429, or it is at least 500; any other
4xx failure is classified non-retryable, causes exactly one attempt, and
is surfaced immediately as the Typed Error carrying that status and the
raw body. -/
theorem retry_classification :
    (∀ e : AxiosErrorModel,
      shouldRetry e = true ↔
        e.response = none ∨
          ∃ r, e.response = some r ∧ (r.status = 429 ∨ 500 ≤ r.status))
    ∧ ∀ (server : String → ServerReply) (mr rd fuel : Nat) (url : String)
        (e : AxiosErrorModel) (r : ErrResponse),
        server url = ServerReply.fail e → e.response = some r →
        400 ≤ r.status → r.status < 500 → r.status ≠ 429 →
        shouldRetry e = false ∧
        fullRequest server mr rd (fuel + 1) url none =
          { result := Except.error (RunError.typed
              { message := "Canvas API Error (" ++ toString r.status ++ "): " ++
                  extractErrorMessage r.data
                status := r.status
                body := r.data })
            requests := 1
            delays := [] } := by
  constructor
  · intro e
    cases hres : e.response with
    | none => simp [shouldRetry, hres]
    | some r =>
        simp only [shouldRetry, hres, Bool.or_eq_true, beq_iff_eq, decide_eq_true_eq]
        constructor
        · intro h
          exact Or.inr ⟨r, rfl, h⟩
        · rintro (h | ⟨r2, hr2, h2⟩)
          · cases h
          · cases hr2
            exact h2
  · intro server mr rd fuel url e r hs hr h400 h500 h429
    have hsr : shouldRetry e = false := by
      simp only [shouldRetry, hr, Bool.or_eq_false_iff]
      constructor
      · simpa using h429
      · simpa using (by omega : ¬ 500 ≤ r.status)
    refine ⟨hsr, ?_⟩
    rw [firstFailureNoRetry server mr rd fuel url e hs]
    simp [normalizeAxiosError, hr]

/-- Witness for C3: the 404 endpoint makes exactly one attempt and raises
the Typed Error with status 404 built from the body's message field. -/
theorem retry_classification_check :
    shouldRetry
      { response := some
          { status := 404
            data := Json.jobj [("message", Json.jstr "The specified resource does not exist.")] }
        hasRequest := true
        message := "Request failed with status code 404" } = false ∧
    fullRequest srv404 3 1000 7 "x" none =
      { result := Except.error (RunError.typed
          { message := "Canvas API Error (404): The specified resource does not exist."
            status := 404
            body := Json.jobj [("message", Json.jstr "The specified resource does not exist.")] })
        requests := 1
        delays := [] } :=
  retry_classification.2 srv404 3 1000 6 "x" _ _ rfl rfl (by decide) (by decide) (by decide)

/-- Counterexample for C4: the message raised for a 404 with string body
"missing" is "Canvas API Error (404): missing", which differs from the
claimed "API Error (404): missing". -/
theorem error_message_claim_refuted :
    normalizeAxiosError
        { response := some { status := 404, data := Json.jstr "missing" }
          hasRequest := true
          message := "m" } =
      RunError.typed
        { message := "Canvas API Error (404): missing"
          status := 404
          body := Json.jstr "missing" }
    ∧ "Canvas API Error (404): missing" ≠ "API Error (404): missing" :=
  ⟨rfl, by decide⟩

/-- C4 (amended): the raised Typed Error has message
"Canvas API Error (<status>): <detail>" and carries the numeric status
and the raw body, where <detail> follows the fixed priority order: a
string body used directly, truncated to 200 characters plus "..." when
longer; else a truthy `message` field of an object body; else an `errors`
array joined element-wise with ", "; else the JSON serialization of the
object; else the stringified value. -/
theorem error_message_format :
    (∀ (st : Nat) (d : Json) (hr : Bool) (m : String),
      normalizeAxiosError { response := some { status := st, data := d },
                            hasRequest := hr, message := m } =
        RunError.typed
          { message := "Canvas API Error (" ++ toString st ++ "): " ++
              extractErrorMessage d
            status := st
            body := d })
    ∧ (∀ s : String, s.length ≤ 200 → extractErrorMessage (Json.jstr s) = s)
    ∧ (∀ s : String, 200 < s.length →
        extractErrorMessage (Json.jstr s) = s.take 200 ++ "...")
    ∧ (∀ (fs : List (String × Json)) (mv : Json),
        lookupField fs "message" = some mv → jsTruthy mv = true →
        extractErrorMessage (Json.jobj fs) = jsToString mv)
    ∧ (∀ (fs : List (String × Json)) (es : List Json) (strs : List String),
        (∀ mv, lookupField fs "message" = some mv → jsTruthy mv = false) →
        lookupField fs "errors" = some (Json.jarr es) →
        es.mapM errElemStr = some strs →
        extractErrorMessage (Json.jobj fs) = String.intercalate ", " strs)
    ∧ (∀ (fs : List (String × Json)) (es : List Json),
        (∀ mv, lookupField fs "message" = some mv → jsTruthy mv = false) →
        lookupField fs "errors" = some (Json.jarr es) →
        es.mapM errElemStr = none →
        extractErrorMessage (Json.jobj fs) = jsToString (Json.jobj fs))
    ∧ (∀ fs : List (String × Json),
        (∀ mv, lookupField fs "message" = some mv → jsTruthy mv = false) →
        (∀ es, lookupField fs "errors" ≠ some (Json.jarr es)) →
        extractErrorMessage (Json.jobj fs) = jsonStringify (Json.jobj fs))
    ∧ (∀ xs : List Json,
        extractErrorMessage (Json.jarr xs) = jsonStringify (Json.jarr xs))
    ∧ extractErrorMessage Json.jnull = "null"
    ∧ (∀ n : Int, extractErrorMessage (Json.jnum n) = toString n)
    ∧ ∀ b : Bool, extractErrorMessage (Json.jbool b) = (if b then "true" else "false") := by
  refine ⟨fun st d hr m => rfl, ?_, ?_, ?_, ?_, ?_, ?_, fun xs => rfl, rfl, fun n => rfl, fun b => rfl⟩
  · intro s h
    simp [extractErrorMessage, Nat.not_lt.mpr h]
  · intro s h
    simp [extractErrorMessage, h]
  · intro fs mv hm ht
    simp [extractErrorMessage, hm, ht]
  · intro fs es strs hmv he hmap
    simp only [List.mapM] at hmap
    cases hm : lookupField fs "message" with
    | none => simp [extractErrorMessage, hm, errorsOrStringify, he, hmap]
    | some mv =>
        have hf := hmv mv hm
        simp [extractErrorMessage, hm, hf, errorsOrStringify, he, hmap]
  · intro fs es hmv he hmap
    simp only [List.mapM] at hmap
    cases hm : lookupField fs "message" with
    | none => simp [extractErrorMessage, hm, errorsOrStringify, he, hmap]
    | some mv =>
        have hf := hmv mv hm
        simp [extractErrorMessage, hm, hf, errorsOrStringify, he, hmap]
  · intro fs hmv herr
    have hstr : errorsOrStringify (Json.jobj fs) fs = jsonStringify (Json.jobj fs) := by
      cases he : lookupField fs "errors" with
      | none => simp [errorsOrStringify, he]
      | some ev =>
          cases ev with
          | jarr es => exact absurd he (herr es)
          | jnull => simp [errorsOrStringify, he]
          | jbool b => simp [errorsOrStringify, he]
          | jnum n => simp [errorsOrStringify, he]
          | jstr s => simp [errorsOrStringify, he]
          | jobj fs2 => simp [errorsOrStringify, he]
    cases hm : lookupField fs "message" with
    | none => simp [extractErrorMessage, hm, hstr]
    | some mv =>
        have hf := hmv mv hm
        simp [extractErrorMessage, hm, hf, hstr]

set_option maxRecDepth 4000 in
/-- Witness for C4: the short string body, the truncated 500-character
body, the message-field body, the errors-array body, and the errors
array with a null element (whose TypeError is caught, falling back to
the String(data) rendering), each at a concrete input. -/
theorem error_message_format_check :
    extractErrorMessage (Json.jstr "missing") = "missing"
    ∧ extractErrorMessage (Json.jstr longBody) = longBody.take 200 ++ "..."
    ∧ extractErrorMessage (Json.jobj [("message", Json.jstr "No access")]) = "No access"
    ∧ extractErrorMessage (Json.jobj [("errors", Json.jarr [Json.jstr "a", Json.jstr "b"])]) =
        "a, b"
    ∧ extractErrorMessage (Json.jobj [("errors", Json.jarr [Json.jnull])]) =
        "[object Object]" :=
  ⟨error_message_format.2.1 "missing" (by decide),
   error_message_format.2.2.1 longBody (by decide),
   error_message_format.2.2.2.1 [("message", Json.jstr "No access")] (Json.jstr "No access")
     rfl rfl,
   error_message_format.2.2.2.2.1 [("errors", Json.jarr [Json.jstr "a", Json.jstr "b"])]
     [Json.jstr "a", Json.jstr "b"] ["a", "b"]
     (fun mv hm => by simp [lookupField] at hm) rfl rfl,
   error_message_format.2.2.2.2.2.1 [("errors", Json.jarr [Json.jnull])] [Json.jnull]
     (fun mv hm => by simp [lookupField] at hm) rfl rfl⟩

/-- C5: a failure with no response at all is classified retryable, and
the call raises a Typed Error with status 0, message
"Network error: <underlying message>" and a null body. -/
theorem network_failure_normalization (server : String → ServerReply)
    (mr rd fuel : Nat) (url m : String)
    (h : server url = ServerReply.fail
        { response := none, hasRequest := true, message := m }) :
    shouldRetry { response := none, hasRequest := true, message := m } = true
    ∧ fullRequest server mr rd (fuel + 1) url none =
        { result := Except.error (RunError.typed
            { message := "Network error: " ++ m, status := 0, body := Json.jnull })
          requests := 1
          delays := [] } := by
  refine ⟨rfl, ?_⟩
  rw [firstFailureNoRetry server mr rd fuel url _ h]
  simp [normalizeAxiosError]

/-- Witness for C5: the timing-out endpoint yields the Typed Error with
status 0 after a single attempt. -/
theorem network_failure_normalization_check :
    shouldRetry { response := none, hasRequest := true,
                  message := "timeout of 30000ms exceeded" } = true
    ∧ fullRequest srvNet 3 1000 7 "x" none =
        { result := Except.error (RunError.typed
            { message := "Network error: timeout of 30000ms exceeded"
              status := 0
              body := Json.jnull })
          requests := 1
          delays := [] } :=
  network_failure_normalization srvNet 3 1000 6 "x" "timeout of 30000ms exceeded" rfl

/-- C6: every backoff delay slept during any run equals
retryDelay * 2 ^ (k - 1) for the 1-indexed retry attempt number k; the
delay doubles from each retry attempt to the next, and the growth has no
upper clamp: it exceeds every bound. -/
theorem backoff_delay_formula :
    (∀ (server : String → ServerReply) (mr rd fuel : Nat) (url : String)
        (rc : Option Nat) (d : Nat),
        d ∈ (fullRequest server mr rd fuel url rc).delays →
        ∃ k, 1 ≤ k ∧ d = rd * 2 ^ (k - 1))
    ∧ (∀ rd k : Nat, 1 ≤ k →
        computeRetryDelay rd (k + 1) = 2 * computeRetryDelay rd k)
    ∧ ∀ rd bound : Nat, 1 ≤ rd → ∃ k, 1 ≤ k ∧ bound < computeRetryDelay rd k := by
  refine ⟨?_, ?_, ?_⟩
  · intro server mr rd fuel url rc d hd
    obtain ⟨k, hk, hdk⟩ := fullRequest_delays_shape server mr rd fuel url rc d hd
    exact ⟨k, hk, hdk⟩
  · intro rd k hk
    unfold computeRetryDelay
    have h1 : k + 1 - 1 = (k - 1) + 1 := by omega
    rw [h1, pow_succ]
    ring
  · intro rd bound hrd
    refine ⟨bound + 1, by omega, ?_⟩
    unfold computeRetryDelay
    have h2 : bound + 1 - 1 = bound := by omega
    rw [h2]
    calc bound < 2 ^ bound := Nat.lt_two_pow bound
      _ ≤ rd * 2 ^ bound := Nat.le_mul_of_pos_left _ hrd

/-- Witness for C6: with a base delay of 100 ms the delay before retry
attempt 2 is twice the delay before attempt 1, and likewise for 3 and 2. -/
theorem backoff_delay_formula_check :
    computeRetryDelay 100 2 = 2 * computeRetryDelay 100 1
    ∧ computeRetryDelay 100 3 = 2 * computeRetryDelay 100 2 :=
  ⟨backoff_delay_formula.2.1 100 1 (by decide),
   backoff_delay_formula.2.1 100 2 (by decide)⟩

/-- Counterexample for C7: the constructor's options bag has no timeout
option — a caller-supplied timeout of 5000 ms is ignored and the client
uses the hard-coded 30000 ms. -/
theorem ctor_timeout_not_configurable :
    (mkCanvasClient "tok" "canvas.example.edu"
        (some { maxRetries := none, retryDelay := none, timeout := some 5000 })).timeout
      = 30000
    ∧ (mkCanvasClient "tok" "canvas.example.edu"
        (some { maxRetries := none, retryDelay := none, timeout := some 5000 })).timeout
      ≠ 5000 :=
  ⟨rfl, by decide⟩

/-- C7 (amended): construction builds the base URL
"https://<host>/api/v1", a bearer authorization header, and uses defaults
maxRetries = 3 and retryDelay = 1000 ms when absent; supplied maxRetries
and retryDelay are the values used; the timeout is fixed at 30000 ms and
is not configurable through the options bag. -/
theorem ctor_config_amended (token domain : String) (mr rd : Nat) (tmo : Option Nat) :
    (mkCanvasClient token domain none).baseURL = "https://" ++ domain ++ "/api/v1"
    ∧ (mkCanvasClient token domain none).authHeader = "Bearer " ++ token
    ∧ (mkCanvasClient token domain none).maxRetries = 3
    ∧ (mkCanvasClient token domain none).retryDelay = 1000
    ∧ (mkCanvasClient token domain none).timeout = 30000
    ∧ (mkCanvasClient token domain
        (some { maxRetries := some mr, retryDelay := some rd, timeout := tmo })).maxRetries = mr
    ∧ (mkCanvasClient token domain
        (some { maxRetries := some mr, retryDelay := some rd, timeout := tmo })).retryDelay = rd
    ∧ (mkCanvasClient token domain
        (some { maxRetries := some mr, retryDelay := some rd, timeout := tmo })).timeout = 30000 :=
  ⟨rfl, rfl, rfl, rfl, rfl, rfl, rfl, rfl⟩

/-- C8: in the activity-enriched roster, every student entity is returned
(the output has one entry per student, in order); a student whose
per-student sub-call fails is returned with last_activity null while all
its other fields are unchanged; no failure escapes the aggregate. -/
theorem roster_partial_failure (students : List Json)
    (fetch : Json → Except RunError Json) :
    (enrichWithActivity fetch students).length = students.length
    ∧ ∀ (i : Nat) (st : Json) (fs : List (String × Json)) (e : RunError),
        students.get? i = some st → st = Json.jobj fs →
        fetch (studentIdOf st) = Except.error e →
        (enrichWithActivity fetch students).get? i =
          some (jsSpreadSet st "last_activity" Json.jnull)
        ∧ getField "last_activity" (jsSpreadSet st "last_activity" Json.jnull) =
            some Json.jnull
        ∧ ∀ key, key ≠ "last_activity" →
            getField key (jsSpreadSet st "last_activity" Json.jnull) = getField key st := by
  constructor
  · simp [enrichWithActivity]
  · intro i st fs e hget hst hfetch
    refine ⟨?_, ?_, ?_⟩
    · simp only [enrichWithActivity, List.get?_map, hget, Option.map_some']
      rw [hfetch]
    · subst hst
      simp [jsSpreadSet, getField, lookupField_setField_self]
    · intro key hkey
      subst hst
      simp [jsSpreadSet, getField,
        lookupField_setField_other fs "last_activity" key Json.jnull hkey]

/-- Witness for C8: in the five-student roster where the sub-call for the
student with id 3 fails, all five entities are returned and the failing
one carries a null last_activity while keeping its id and name. -/
theorem roster_partial_failure_check :
    (enrichWithActivity rosterFetch rosterStudents).length = rosterStudents.length
    ∧ ((enrichWithActivity rosterFetch rosterStudents).get? 2 =
          some (jsSpreadSet (mkStudent 3 "Cleo") "last_activity" Json.jnull)
        ∧ getField "last_activity"
            (jsSpreadSet (mkStudent 3 "Cleo") "last_activity" Json.jnull) = some Json.jnull
        ∧ ∀ key, key ≠ "last_activity" →
            getField key (jsSpreadSet (mkStudent 3 "Cleo") "last_activity" Json.jnull) =
              getField key (mkStudent 3 "Cleo")) :=
  ⟨(roster_partial_failure rosterStudents rosterFetch).1,
   (roster_partial_failure rosterStudents rosterFetch).2 2 (mkStudent 3 "Cleo")
     [("id", Json.jnum 3), ("name", Json.jstr "Cleo")] rosterErr rfl rfl rfl⟩

/-- Counterexample for C9: a failure carrying neither a response nor a
request (for example a request-interceptor rejection) propagates to the
caller unchanged — the observed failure is not a Typed Error. -/
theorem call_outcome_claim_refuted :
    (fullRequest srvSetup 3 1000 2 "x" none).result =
      Except.error (RunError.unwrapped "boom")
    ∧ isTypedFailure (RunError.unwrapped "boom") = false :=
  ⟨rfl, rfl⟩

/-- C9 (amended): a logical call either returns one fully processed
payload or raises exactly one failure — partial page accumulation is
never handed to the caller — and every failure that carries a response
or a request context is normalized to a single Typed Error; only an
unexpected failure with neither context propagates unwrapped. -/
theorem call_outcome_amended :
    (∀ (server : String → ServerReply) (mr rd fuel : Nat) (url : String),
      (∃ d, logicalCall server mr rd fuel url = Except.ok d) ∨
      (∃ e, logicalCall server mr rd fuel url = Except.error e))
    ∧ ∀ e : AxiosErrorModel, (e.response.isSome = true ∨ e.hasRequest = true) →
        ∃ ce : CanvasAPIError, normalizeAxiosError e = RunError.typed ce := by
  constructor
  · intro server mr rd fuel url
    cases h : logicalCall server mr rd fuel url with
    | ok d => exact Or.inl ⟨d, rfl⟩
    | error e => exact Or.inr ⟨e, rfl⟩
  · intro e he
    cases hr : e.response with
    | some r =>
        exact ⟨{ message := "Canvas API Error (" ++ toString r.status ++ "): " ++
                   extractErrorMessage r.data
                 status := r.status
                 body := r.data }, by simp [normalizeAxiosError, hr]⟩
    | none =>
        cases he with
        | inl h => rw [hr] at h; simp at h
        | inr h =>
            exact ⟨{ message := "Network error: " ++ e.message, status := 0,
                     body := Json.jnull }, by simp [normalizeAxiosError, hr, h]⟩

/-- Witness for C9 (amended): the three-page collection call settles into
a single outcome, and a network-level failure normalizes to a Typed
Error. -/
theorem call_outcome_amended_check :
    ((∃ d, logicalCall srvPages 3 1000 8 "u1" = Except.ok d) ∨
     (∃ e, logicalCall srvPages 3 1000 8 "u1" = Except.error e))
    ∧ ∃ ce, normalizeAxiosError
        { response := none, hasRequest := true, message := "t" } = RunError.typed ce :=
  ⟨call_outcome_amended.1 srvPages 3 1000 8 "u1",
   call_outcome_amended.2 { response := none, hasRequest := true, message := "t" }
     (Or.inr rfl)⟩

/-- C10: healthCheck never throws — it always returns a record with the
supplied timestamp whose status is "ok" with the user's id and name
exactly when the profile fetch succeeded, and "error" (with no user) on
every failure, the underlying failure being swallowed. -/
theorem health_check_total (r : Except RunError UserProfileModel) (now : String) :
    (healthCheck r now).timestamp = now
    ∧ ((healthCheck r now).status = "ok" ∨ (healthCheck r now).status = "error")
    ∧ (∀ u, r = Except.ok u →
        healthCheck r now =
          { status := "ok", timestamp := now, user := some (u.id, u.name) })
    ∧ (∀ e, r = Except.error e →
        healthCheck r now = { status := "error", timestamp := now, user := none })
    ∧ ((healthCheck r now).status = "ok" ↔ ∃ u, r = Except.ok u) := by
  cases r with
  | ok u =>
      refine ⟨rfl, Or.inl rfl, ?_, ?_, ?_⟩
      · intro u2 hu
        cases hu
        rfl
      · intro e he
        simp at he
      · constructor
        · intro _
          exact ⟨u, rfl⟩
        · intro _
          rfl
  | error e =>
      refine ⟨rfl, Or.inr rfl, ?_, ?_, ?_⟩
      · intro u hu
        simp at hu
      · intro e2 he
        cases he
        rfl
      · constructor
        · intro h
          exact absurd h (by decide : ("error" : String) ≠ "ok")
        · rintro ⟨u, hu⟩
          simp at hu

/-- Witness for C10: a successful fetch yields status ok with the user
summary; a failed fetch yields status error with the same timestamp. -/
theorem health_check_total_check :
    healthCheck (Except.ok { id := 7, name := "T" }) "2024-01-01T00:00:00Z" =
      { status := "ok", timestamp := "2024-01-01T00:00:00Z", user := some (7, "T") }
    ∧ healthCheck (Except.error (RunError.unwrapped "x")) "now" =
        { status := "error", timestamp := "now", user := none } :=
  ⟨(health_check_total (Except.ok { id := 7, name := "T" }) "2024-01-01T00:00:00Z").2.2.1
      { id := 7, name := "T" } rfl,
   (health_check_total (Except.error (RunError.unwrapped "x")) "now").2.2.2.1
      (RunError.unwrapped "x") rfl⟩
